import Mathlib

/-
Verification of the `cfile` ownership wrapper (src/cfile.h).

`cfile` is an owning wrapper around a C `FILE*`, implemented as a
`std::unique_ptr<std::FILE, deleter>` whose deleter calls `std::fclose`.
We give a shallow embedding: the raw `FILE*` is an `Option StreamId`
(`none` is the null pointer), and the surrounding C library state is an
explicit `Sys` record holding the set of currently open streams, an
environment table deciding which `fopen`/`freopen` requests succeed and
with what initial stream contents, and an event log recording every
flush, close and open the libc layer performs.  Each member function of
`cfile` is translated directly from the source, threading `Sys` through
the calls it makes; member functions that perform no libc call (the
move operations, `release`) do not touch `Sys`.
-/

set_option autoImplicit false

/-- A stream id: the abstract value of a non-null `FILE*`. -/
abbrev StreamId := Nat

/-- The readable state of an open stream: the list of characters that
`fgetc` will deliver, front first.  `ungetc` pushes onto the front. -/
structure CStream where
  input : List Nat
  deriving DecidableEq

/-- The stream with no characters left to read. -/
def emptyStream : CStream := ⟨[]⟩

/-- Resource events performed by the modeled libc layer, in order. -/
inductive Ev where
  /-- buffered data of stream `id` delivered to the host (part of `fclose`) -/
  | flushed (id : StreamId)
  /-- stream `id` closed -/
  | closed (id : StreamId)
  /-- a stream was (re)opened with id `id` -/
  | opened (id : StreamId)
  deriving DecidableEq

/-- The C library state: the open streams, a fresh-id counter, the
environment table telling which `(filename?, mode)` requests succeed
(`none` as filename is the null filename passed by `freopen` for a mode
change) together with the initial input of the resulting stream, and the
log of resource events performed so far. -/
structure Sys where
  streams : List (StreamId × CStream)
  nextId : StreamId
  openTable : List ((Option String × String) × List Nat)
  events : List Ev
  deriving DecidableEq

/-- Look up a stream id among the open streams. -/
def lookupStream : List (StreamId × CStream) → StreamId → Option CStream
  | [], _ => none
  | (i, st) :: rest, id => if i = id then some st else lookupStream rest id

/-- Remove a stream id from the open streams. -/
def removeStream : List (StreamId × CStream) → StreamId → List (StreamId × CStream)
  | [], _ => []
  | (i, st) :: rest, id =>
    if i = id then removeStream rest id else (i, st) :: removeStream rest id

/-- Replace the contents of stream `id`. -/
def updateStream (l : List (StreamId × CStream)) (id : StreamId) (st : CStream) :
    List (StreamId × CStream) :=
  l.map (fun p => if p.1 = id then (id, st) else p)

/-- Whether stream `id` is currently open. -/
def streamOpen (s : Sys) (id : StreamId) : Bool :=
  (lookupStream s.streams id).isSome

/-- Look up a `(filename?, mode)` request in the environment table. -/
def lookupTable : List ((Option String × String) × List Nat) → Option String → String →
    Option (List Nat)
  | [], _, _ => none
  | ((n, m), content) :: rest, name, mode =>
    if n = name ∧ m = mode then some content else lookupTable rest name mode

/-- `std::fopen(name, mode)`: if the environment grants the request, a
fresh stream is created and its id returned; otherwise null is returned
and nothing happens. -/
def fopenSys (s : Sys) (name mode : String) : Option StreamId × Sys :=
  match lookupTable s.openTable (some name) mode with
  | none => (none, s)
  | some content =>
    (some s.nextId,
     { s with
        streams := (s.nextId, ⟨content⟩) :: s.streams
        nextId := s.nextId + 1
        events := s.events ++ [Ev.opened s.nextId] })

/-- `std::fclose(id)`: flushes buffered data of the stream, then closes
it and removes it from the open set. -/
def fcloseSys (s : Sys) (id : StreamId) : Sys :=
  { s with
      streams := removeStream s.streams id
      events := s.events ++ [Ev.flushed id, Ev.closed id] }

/-- `std::freopen(name?, mode, p)`: first closes the stream `p`
(ignoring errors), then attempts to reopen under the new name and mode,
reusing the same `FILE` object, so on success the returned pointer is
`p` itself; on failure null is returned and the stream stays closed.
Calling it with a null stream is undefined behavior in C; it is modeled
here as a failure that performs nothing. -/
def freopenSys (s : Sys) (name : Option String) (mode : String) (p : Option StreamId) :
    Option StreamId × Sys :=
  match p with
  | none => (none, s)
  | some id =>
    let s1 := fcloseSys s id
    match lookupTable s1.openTable name mode with
    | none => (none, s1)
    | some content =>
      (some id,
       { s1 with
          streams := (id, ⟨content⟩) :: s1.streams
          events := s1.events ++ [Ev.opened id] })

/-- The `EOF` sentinel returned by `fgetc`/`ungetc`. -/
def EOF : Int := -1

/-- `std::fgetc(p)`: reads the next character of the stream, or returns
`EOF` at end of stream.  Reading a null or closed stream is undefined
behavior in C, modeled as returning `EOF` with no effect. -/
def fgetcSys (s : Sys) (p : Option StreamId) : Int × Sys :=
  match p with
  | none => (EOF, s)
  | some id =>
    match lookupStream s.streams id with
    | none => (EOF, s)
    | some st =>
      match st.input with
      | [] => (EOF, s)
      | ch :: rest => (Int.ofNat ch, { s with streams := updateStream s.streams id ⟨rest⟩ })

/-- `std::ungetc(ch, p)`: pushing `EOF` fails, returns `EOF` and leaves
the stream unchanged; otherwise `ch` (converted to `unsigned char`) is
pushed back onto the stream and returned. -/
def ungetcSys (s : Sys) (ch : Int) (p : Option StreamId) : Int × Sys :=
  if ch = EOF then (EOF, s)
  else
    match p with
    | none => (EOF, s)
    | some id =>
      match lookupStream s.streams id with
      | none => (EOF, s)
      | some st =>
        let c := (ch % 256).toNat
        (Int.ofNat c, { s with streams := updateStream s.streams id ⟨c :: st.input⟩ })

/-- The `cfile` wrapper: its single data member is
`std::unique_ptr<std::FILE, deleter> f`, embedded as the raw pointer it
stores (`none` when null, i.e. the unlinked state). -/
structure cfile where
  f : Option StreamId
  deriving DecidableEq

/-- `unique_ptr::reset(p)` as used by `cfile`: stores `p`, then, if the
old stored pointer was non-null, invokes the deleter (`std::fclose`) on
it — in that order, per the C++ standard. -/
def uptrReset (c : cfile) (p : Option StreamId) (s : Sys) : cfile × Sys :=
  (⟨p⟩,
   match c.f with
   | none => s
   | some id => fcloseSys s id)

/-- `cfile()`: creates an unlinked file handle. -/
def cfile.mkDefault : cfile := ⟨none⟩

/-- `cfile(std::FILE *file)`: adopts the given raw handle; unlinked when
it is null.  No libc call is made. -/
def cfile.ofRaw (p : Option StreamId) : cfile := ⟨p⟩

/-- `cfile(const char *filename, const char *mode)`: member initializer
`f(std::fopen(filename, mode))`.  Never throws: failure only leaves the
stored pointer null. -/
def cfile.ofPath (s : Sys) (name mode : String) : cfile × Sys :=
  let r := fopenSys s name mode
  (⟨r.1⟩, r.2)

/-- `cfile(cfile &&other)`: member initializer `f(std::move(other.f))`.
The unique_ptr move constructor takes the pointer and nulls the source;
no deleter (hence no libc call) runs, so `Sys` is returned unchanged.
Result: (the new object, `other` afterwards, the system). -/
def cfile.moveCtor (other : cfile) (s : Sys) : cfile × cfile × Sys :=
  (⟨other.f⟩, ⟨none⟩, s)

/-- `operator=(cfile &&other)` between distinct objects:
`f = std::move(other.f)`, i.e. `f.reset(other.f.release())`: `other`'s
pointer is taken (nulling `other`), then `reset` stores it and closes
the old pointer of the destination if it was non-null.
Result: (the destination afterwards, `other` afterwards, the system). -/
def cfile.moveAssign (dest other : cfile) (s : Sys) : cfile × cfile × Sys :=
  let p := other.f
  let other' : cfile := ⟨none⟩
  let r := uptrReset dest p s
  (r.1, other', r.2)

/-- `a = std::move(a)`: the same assignment when source and destination
alias.  `f.release()` runs first, returning the stored pointer and
nulling the (shared) object; `reset` then sees a null old pointer, so no
deleter runs and the pointer is stored back. -/
def cfile.selfMoveAssign (a : cfile) (s : Sys) : cfile × Sys :=
  let p := a.f
  let afterRelease : cfile := ⟨none⟩
  uptrReset afterRelease p s

/-- `~cfile()` (the unique_ptr destructor): closes the stored pointer if
non-null, otherwise does nothing. -/
def cfile.destroy (c : cfile) (s : Sys) : Sys :=
  match c.f with
  | none => s
  | some id => fcloseSys s id

/-- `get()`: returns the raw `FILE*` if linked, otherwise null. -/
def cfile.get (c : cfile) : Option StreamId := c.f

/-- `release()`: `f.release()` — returns the stored pointer and nulls
it, without invoking the deleter (no libc call is made). -/
def cfile.release (c : cfile) : Option StreamId × cfile := (c.f, ⟨none⟩)

/-- `explicit operator bool()`: `get() != nullptr`. -/
def cfile.opBool (c : cfile) : Bool := c.get.isSome

/-- `operator!()`: `get() == nullptr`. -/
def cfile.opNot (c : cfile) : Bool := c.get.isNone

/-- `open(filename, mode)`: the body is `f.reset(std::fopen(filename,
mode))` — `fopen` is evaluated first, then `reset` stores its result and
closes the previously held stream if there was one.  (The mutated handle
is returned; the C++ `return *this` reference is this first component.) -/
def cfile.openFile (c : cfile) (s : Sys) (name mode : String) : cfile × Sys :=
  let r := fopenSys s name mode
  uptrReset c r.1 r.2

/-- `reopen(filename, mode)`:
`return std::freopen(filename, mode, get()) != nullptr;` — the stored
pointer is passed to `freopen` and is not modified by the wrapper.
Result: (the returned bool, the handle afterwards, the system). -/
def cfile.reopen (c : cfile) (s : Sys) (name mode : String) : Bool × cfile × Sys :=
  let r := freopenSys s (some name) mode c.get
  (r.1.isSome, c, r.2)

/-- `chmode(mode)`: `return std::freopen(nullptr, mode, get()) != nullptr;` -/
def cfile.chmode (c : cfile) (s : Sys) (mode : String) : Bool × cfile × Sys :=
  let r := freopenSys s none mode c.get
  (r.1.isSome, c, r.2)

/-- `close()`: `f.reset();` — resets the stored pointer to null, closing
(and, per `fclose`, flushing) the stream if one was held. -/
def cfile.close (c : cfile) (s : Sys) : cfile × Sys := uptrReset c none s

/-- `getc()`: `return std::fgetc(get());` -/
def cfile.getc (c : cfile) (s : Sys) : Int × Sys := fgetcSys s c.get

/-- `ungetc(ch)`: `return std::ungetc(ch, get());` -/
def cfile.ungetc (c : cfile) (s : Sys) (ch : Int) : Int × Sys := ungetcSys s ch c.get

/-- `peek()`: `return std::ungetc(std::fgetc(get()), get());` -/
def cfile.peek (c : cfile) (s : Sys) : Int × Sys :=
  let r := fgetcSys s c.get
  ungetcSys r.2 r.1 c.get

/-- Whether an occurrence of event `a` strictly precedes an occurrence
of event `b` in the log. -/
def hasEv (b : Ev) : List Ev → Bool
  | [] => false
  | x :: xs => if x = b then true else hasEv b xs

/-- `precedes a b log` holds when some occurrence of `a` is strictly
before some occurrence of `b` in `log`. -/
def precedes (a b : Ev) : List Ev → Bool
  | [] => false
  | x :: xs => if x = a then hasEv b xs else precedes a b xs

/-- Concrete input for claim C1: a handle linked to stream 0, and a
system where stream 0 is open and opening ("new", "w") succeeds. -/
def cW1 : cfile := ⟨some 0⟩

/-- The system accompanying `cW1`. -/
def sysW1 : Sys := ⟨[(0, emptyStream)], 1, [((some "new", "w"), [])], []⟩

/-- Concrete input for claim C7: a handle linked to stream 0 whose
stream is open and empty. -/
def cW7 : cfile := ⟨some 0⟩

/-- The system accompanying `cW7`. -/
def sysW7 : Sys := ⟨[(0, emptyStream)], 1, [], []⟩

theorem lookupStream_removeStream (l : List (StreamId × CStream)) (id : StreamId) :
    lookupStream (removeStream l id) id = none := by
  induction l with
  | nil => rfl
  | cons p rest ih =>
    rcases p with ⟨i, st⟩
    simp only [removeStream]
    by_cases h : i = id
    · simpa [h] using ih
    · simp [h, lookupStream, ih]

theorem fopenSys_fst (s : Sys) (name mode : String) :
    (fopenSys s name mode).1 = none ∨ (fopenSys s name mode).1 = some s.nextId := by
  unfold fopenSys
  cases lookupTable s.openTable (some name) mode <;> simp

/-- Claim C8 (confirmed): the boolean conversion equals `get()` being
non-null, `operator!` equals `get()` being null, the two are exact
negations, and exactly one of them holds in every reachable state. -/
theorem bool_queries_agree_with_get (c : cfile) :
    c.opBool = c.get.isSome ∧ c.opNot = c.get.isNone ∧ c.opNot = !c.opBool ∧
    Bool.xor c.opBool c.opNot = true := by
  rcases c with ⟨f⟩
  cases f <;> simp [cfile.opBool, cfile.opNot, cfile.get]

/-- Claim C5 (confirmed): constructing from a path stores exactly the
result of `fopen` and never raises an error (the constructor is a total
function); on failure the instance is unlinked with a false boolean
conversion and null `get()`, on success it is linked with non-null
`get()` — failure is observable exactly through these checks. -/
theorem ofPath_failure_observable (s : Sys) (name mode : String) :
    (cfile.ofPath s name mode).1.get = (fopenSys s name mode).1 ∧
    (cfile.ofPath s name mode).1.opBool = ((fopenSys s name mode).1).isSome ∧
    (cfile.ofPath s name mode).1.opNot = ((fopenSys s name mode).1).isNone :=
  ⟨rfl, rfl, rfl⟩

/-- Claim C4 (confirmed): `release()` returns the raw handle it owned,
leaves the instance unlinked, makes no libc call, and destroying the
instance afterwards performs no resource action at all. -/
theorem release_unlinks_without_close (c : cfile) (s : Sys) :
    (cfile.release c).1 = c.get ∧
    (cfile.release c).2.get = none ∧
    cfile.destroy (cfile.release c).2 s = s :=
  ⟨rfl, rfl, rfl⟩

/-- Claim C10 (confirmed): adopting a null raw handle yields exactly the
default-constructed unlinked state: false boolean conversion, null
`get()`, and destruction performs no resource action. -/
theorem ofRaw_null_is_default (s : Sys) :
    cfile.ofRaw none = cfile.mkDefault ∧
    (cfile.ofRaw none).get = none ∧
    (cfile.ofRaw none).opBool = false ∧
    (cfile.ofRaw none).opNot = true ∧
    cfile.destroy (cfile.ofRaw none) s = s :=
  ⟨rfl, rfl, rfl, rfl, rfl⟩

/-- Claim C9 (confirmed): self-move-assignment is a safe no-op: the
handle keeps the same raw pointer and linked state, and no stream is
touched — `release()` nulls the shared object before `reset` looks at
its old value, so the deleter never runs. -/
theorem self_move_assign_noop (a : cfile) (s : Sys) :
    cfile.selfMoveAssign a s = (a, s) := by
  rcases a with ⟨f⟩
  rfl

/-- Claim C3 (confirmed): move construction transfers the raw handle,
unlinks the source and touches no stream; move assignment transfers the
raw handle, unlinks the source, and its only resource action is closing
the destination's previously owned stream when there was one (nothing is
closed when the destination was unlinked, and the moved resource itself
is never closed). -/
theorem move_transfers_ownership (other dest : cfile) (s : Sys) :
    (cfile.moveCtor other s).1.get = other.get ∧
    (cfile.moveCtor other s).2.1.get = none ∧
    (cfile.moveCtor other s).2.2 = s ∧
    (cfile.moveAssign dest other s).1.get = other.get ∧
    (cfile.moveAssign dest other s).2.1.get = none ∧
    (cfile.moveAssign dest other s).2.2 =
      (match dest.f with
       | none => s
       | some id => fcloseSys s id) := by
  refine ⟨rfl, rfl, rfl, rfl, rfl, ?_⟩
  rcases dest with ⟨f⟩
  cases f <;> rfl

/-- Claim C6 (confirmed): `close()` always leaves the instance unlinked;
on a linked instance it flushes and closes exactly the owned stream, on
an unlinked instance it is a no-op; and it is idempotent — a second
`close()` immediately after the first changes neither the handle nor the
system. -/
theorem close_idempotent_unlinks (c : cfile) (s : Sys) :
    (cfile.close c s).1.get = none ∧
    (cfile.close c s).2 =
      (match c.f with
       | none => s
       | some id => fcloseSys s id) ∧
    (cfile.close c s).2.events =
      s.events ++ (match c.f with
                   | none => []
                   | some id => [Ev.flushed id, Ev.closed id]) ∧
    cfile.close (cfile.close c s).1 (cfile.close c s).2 =
      ((cfile.close c s).1, (cfile.close c s).2) := by
  rcases c with ⟨f⟩
  cases f with
  | none => exact ⟨rfl, rfl, by simp [cfile.close, uptrReset], rfl⟩
  | some id => exact ⟨rfl, rfl, by simp [cfile.close, uptrReset, fcloseSys], rfl⟩

/-- Claim C2 (confirmed): `reopen` and `chmode` return exactly the
success of the underlying `freopen` call on the stored pointer, the
system evolves exactly as that call dictates, and the wrapper's stored
stream reference is unchanged in all cases — success or failure. -/
theorem reopen_chmode_frame (c : cfile) (s : Sys) (name mode : String) :
    (cfile.reopen c s name mode).2.1 = c ∧
    (cfile.reopen c s name mode).1 = ((freopenSys s (some name) mode c.get).1).isSome ∧
    (cfile.reopen c s name mode).2.2 = (freopenSys s (some name) mode c.get).2 ∧
    (cfile.chmode c s mode).2.1 = c ∧
    (cfile.chmode c s mode).1 = ((freopenSys s none mode c.get).1).isSome ∧
    (cfile.chmode c s mode).2.2 = (freopenSys s none mode c.get).2 :=
  ⟨rfl, rfl, rfl, rfl, rfl, rfl⟩

/-- Claim C7 (confirmed): on a linked handle whose stream is open and
empty, `peek()` returns `EOF`, a subsequent `getc()` also returns `EOF`,
and the stream stays empty — the failed pushback of the sentinel
materializes no character. -/
theorem peek_empty_returns_eof (c : cfile) (s : Sys) (id : StreamId)
    (hc : c.f = some id) (hs : lookupStream s.streams id = some emptyStream) :
    (cfile.peek c s).1 = EOF ∧
    (cfile.getc c (cfile.peek c s).2).1 = EOF ∧
    lookupStream ((cfile.peek c s).2).streams id = some emptyStream := by
  have hpeek : cfile.peek c s = (EOF, s) := by
    simp [cfile.peek, cfile.get, fgetcSys, ungetcSys, hc, hs, emptyStream]
  rw [hpeek]
  refine ⟨rfl, ?_, hs⟩
  simp [cfile.getc, cfile.get, fgetcSys, hc, hs, emptyStream]

/-- Witness for claim C7 at the concrete input `cW7`, `sysW7`. -/
theorem peek_empty_returns_eof_witness :
    cW7.f = some 0 ∧ lookupStream sysW7.streams 0 = some emptyStream ∧
    ((cfile.peek cW7 sysW7).1 = EOF ∧
     (cfile.getc cW7 (cfile.peek cW7 sysW7).2).1 = EOF ∧
     lookupStream ((cfile.peek cW7 sysW7).2).streams 0 = some emptyStream) :=
  ⟨rfl, rfl, peek_empty_returns_eof cW7 sysW7 0 rfl rfl⟩

/-- Claim C1 as stated is false on the code at a concrete input: for a
linked handle, `open` records the opening of the new stream strictly
before the flush and close of the previously owned stream (the body is
`f.reset(std::fopen(filename, mode))`, which evaluates `fopen` first and
closes the old pointer last), so the old resource is not closed first. -/
theorem openFile_order_counterexample :
    (cfile.openFile cW1 sysW1 "new" "w").2.events =
      [Ev.opened 1, Ev.flushed 0, Ev.closed 0] ∧
    precedes (Ev.closed 0) (Ev.opened 1)
      ((cfile.openFile cW1 sysW1 "new" "w").2.events) = false ∧
    precedes (Ev.opened 1) (Ev.closed 0)
      ((cfile.openFile cW1 sysW1 "new" "w").2.events) = true := by
  refine ⟨?_, ?_, ?_⟩ <;> rfl

/-- Claim C1 (amended): for every linked handle, `open(name, mode)`
attempts to open `name` with `mode` and then closes the previously owned
resource; if the attempt fails the instance ends unlinked; in all cases
it ends owning exactly the newly opened resource (or nothing on
failure), never the old one, and the old stream is no longer open. -/
theorem openFile_closes_old_after_opening (c : cfile) (s : Sys) (name mode : String)
    (id : StreamId) (hc : c.f = some id) (hlt : id < s.nextId) :
    (cfile.openFile c s name mode).1.f = (fopenSys s name mode).1 ∧
    (cfile.openFile c s name mode).2 = fcloseSys (fopenSys s name mode).2 id ∧
    streamOpen (cfile.openFile c s name mode).2 id = false ∧
    (fopenSys s name mode).1 ≠ some id := by
  have h2 : (cfile.openFile c s name mode).2 = fcloseSys (fopenSys s name mode).2 id := by
    simp [cfile.openFile, uptrReset, hc]
  refine ⟨by simp [cfile.openFile, uptrReset], h2, ?_, ?_⟩
  · rw [h2]
    simp [streamOpen, fcloseSys, lookupStream_removeStream]
  · intro heq
    rcases fopenSys_fst s name mode with h | h
    · rw [h] at heq
      exact Option.noConfusion heq
    · rw [h] at heq
      have hnid : s.nextId = id := Option.some.inj heq
      exact Nat.lt_irrefl id (hnid ▸ hlt)

/-- Witness for the amended claim C1 at the concrete input `cW1`,
`sysW1`. -/
theorem openFile_closes_old_after_opening_witness :
    cW1.f = some 0 ∧ 0 < sysW1.nextId ∧
    ((cfile.openFile cW1 sysW1 "new" "w").1.f = (fopenSys sysW1 "new" "w").1 ∧
     (cfile.openFile cW1 sysW1 "new" "w").2 = fcloseSys (fopenSys sysW1 "new" "w").2 0 ∧
     streamOpen (cfile.openFile cW1 sysW1 "new" "w").2 0 = false ∧
     (fopenSys sysW1 "new" "w").1 ≠ some 0) :=
  ⟨rfl, by decide, openFile_closes_old_after_opening cW1 sysW1 "new" "w" 0 rfl (by decide)⟩
